import Mathlib

/-!
Shallow embedding of the refinery LP repository:
* `src/module/abstractmodel/__main__.py` — the multiperiod model builder
  (sets, parameters, constraint families) of `RefineryOptimizationAbstract`;
* `src/refinery_problem/helpers.py` — the result extractor
  `store_results_pd` and the reporting helper `print_output`;
* `src/case_studies/case_study_02.py` / `case_study_05.py` — the scenario
  controller (fixed-schedule tank ablation plus shutdown-flag loop).

Machine reals are modelled as `ℚ`; the external solver is out of scope, so
constraint satisfaction is stated over arbitrary variable assignments.
-/

namespace Refinery

/-- A value stored in a result record: a number or a status string
(the pandas Series in the source holds both). -/
inductive RVal where
  | num (q : ℚ)
  | str (s : String)
deriving DecidableEq

/-- Python tuple comparison on `(name, value)` pairs, as performed by
`sorted(zip(store_index, store_values))` in `store_results_pd`:
compare names lexicographically, break ties by value. -/
def pairRel (p q : String × ℚ) : Prop :=
  p.1 < q.1 ∨ (p.1 = q.1 ∧ p.2 ≤ q.2)

instance : DecidableRel pairRel := fun p q => by
  unfold pairRel; infer_instance

instance : IsTotal (String × ℚ) pairRel := by
  constructor
  intro p q
  rcases lt_trichotomy p.1 q.1 with h | h | h
  · exact Or.inl (Or.inl h)
  · rcases le_total p.2 q.2 with h2 | h2
    · exact Or.inl (Or.inr ⟨h, h2⟩)
    · exact Or.inr (Or.inr ⟨h.symm, h2⟩)
  · exact Or.inr (Or.inl h)

instance : IsTrans (String × ℚ) pairRel := by
  constructor
  intro p q r hpq hqr
  rcases hpq with h1 | ⟨e1, v1⟩
  · rcases hqr with h2 | ⟨e2, v2⟩
    · exact Or.inl (h1.trans h2)
    · exact Or.inl (e2 ▸ h1)
  · rcases hqr with h2 | ⟨e2, v2⟩
    · exact Or.inl (e1 ▸ h2)
    · exact Or.inr ⟨e1.trans e2, v1.trans v2⟩

/-- Embedding of `helpers.store_results_pd`.  `vars` is the list of
`(variable name, solved value)` pairs produced by iterating the model's
variable objects, `alphas` the `(parameter name, value)` pairs of the
shutdown parameters, `tc` and `status` the solver-reported termination
condition and status, `obj` the objective value of the solve. -/
def store_results_pd (vars alphas : List (String × ℚ)) (tc status : String) (obj : ℚ) :
    List (String × RVal) :=
  let body := (vars.map fun p => (p.1, if tc = "optimal" then p.2 else (0 : ℚ))) ++ alphas
  let sortedBody := List.insertionSort pairRel body
  let tail := sortedBody.map fun p => (p.1, RVal.num p.2)
  if tc = "optimal" then
    ("Solver Status", RVal.str status) ::
    ("Termination Condition", RVal.str tc) ::
    ("Objective", RVal.num obj) :: tail
  else
    ("Solver Status", RVal.str "failed") ::
    ("Termination Condition", RVal.str "infeasible") ::
    ("Objective", RVal.num 0) :: tail

theorem map_fst_insertionSort (l : List (String × ℚ)) :
    (List.insertionSort pairRel l).map Prod.fst
      = List.insertionSort (· ≤ ·) (l.map Prod.fst) := by
  apply List.eq_of_perm_of_sorted (r := (· ≤ · : String → String → Prop))
  · exact ((List.perm_insertionSort pairRel l).map Prod.fst).trans
      (List.perm_insertionSort _ _).symm
  · refine List.Pairwise.map Prod.fst ?_ (List.sorted_insertionSort pairRel l)
    intro p q hpq
    rcases hpq with h | ⟨h, _⟩
    · exact le_of_lt h
    · exact le_of_eq h
  · exact List.sorted_insertionSort _ _

theorem map_fst_tail (l : List (String × ℚ)) :
    (l.map fun p => (p.1, RVal.num p.2)).map Prod.fst = l.map Prod.fst := by
  rw [List.map_map]; rfl

theorem map_fst_body (vars alphas : List (String × ℚ)) (tc : String) :
    ((vars.map fun p => (p.1, if tc = "optimal" then p.2 else (0 : ℚ))) ++ alphas).map Prod.fst
      = (vars ++ alphas).map Prod.fst := by
  rw [List.map_append, List.map_append, List.map_map]; rfl

theorem map_fst_store (vars alphas : List (String × ℚ)) (tc status : String) (obj : ℚ) :
    (store_results_pd vars alphas tc status obj).map Prod.fst
      = "Solver Status" :: "Termination Condition" :: "Objective" ::
          List.insertionSort (· ≤ ·) ((vars ++ alphas).map Prod.fst) := by
  by_cases h : tc = "optimal"
  · simp only [store_results_pd]
    rw [if_pos h, List.map_cons, List.map_cons, List.map_cons, map_fst_tail,
      map_fst_insertionSort, map_fst_body]
  · simp only [store_results_pd]
    rw [if_neg h, List.map_cons, List.map_cons, List.map_cons, map_fst_tail,
      map_fst_insertionSort, map_fst_body]

/-- C8: `store_results_pd` sorts all variable and shutdown-flag entries
lexicographically by key string, and only then prepends the fixed-position
header rows, so the record's first three keys are `Solver Status`,
`Termination Condition`, `Objective` in that order, the remaining keys are
in ascending lexicographic order, and the key order is identical for every
scenario (optimal or failed) over the same model. -/
theorem c8_record_ordering (vars alphas : List (String × ℚ)) (tc status tc2 status2 : String)
    (obj obj2 : ℚ) :
    ((store_results_pd vars alphas tc status obj).map Prod.fst).take 3
        = ["Solver Status", "Termination Condition", "Objective"]
    ∧ List.Sorted (· ≤ ·) (((store_results_pd vars alphas tc status obj).map Prod.fst).drop 3)
    ∧ (store_results_pd vars alphas tc status obj).map Prod.fst
        = (store_results_pd vars alphas tc2 status2 obj2).map Prod.fst := by
  refine ⟨?_, ?_, ?_⟩
  · rw [map_fst_store]; rfl
  · rw [map_fst_store]
    exact List.sorted_insertionSort _ _
  · rw [map_fst_store, map_fst_store]

/-- C4: when the termination condition is not `optimal`, the record stores
value 0 for every decision variable, omitting none, and has exactly the
same key sequence as an optimal scenario's record. -/
theorem c4_failure_uniform_record (vars alphas : List (String × ℚ))
    (tc status status2 : String) (obj obj2 : ℚ) (h : tc ≠ "optimal") :
    (∀ n ∈ vars.map Prod.fst, (n, RVal.num 0) ∈ store_results_pd vars alphas tc status obj)
    ∧ (store_results_pd vars alphas tc status obj).map Prod.fst
        = (store_results_pd vars alphas "optimal" status2 obj2).map Prod.fst := by
  constructor
  · intro n hn
    obtain ⟨p, hp, rfl⟩ := List.mem_map.mp hn
    simp only [store_results_pd, if_neg h]
    have hbody : (p.1, (0 : ℚ)) ∈ (vars.map fun q => (q.1, (0 : ℚ))) ++ alphas := by
      refine List.mem_append_left _ ?_
      exact List.mem_map.mpr ⟨p, hp, rfl⟩
    have hsorted : (p.1, (0 : ℚ)) ∈ List.insertionSort pairRel
        ((vars.map fun q => (q.1, (0 : ℚ))) ++ alphas) :=
      ((List.perm_insertionSort pairRel _).mem_iff).mpr hbody
    have htail : (p.1, RVal.num 0) ∈ (List.insertionSort pairRel
        ((vars.map fun q => (q.1, (0 : ℚ))) ++ alphas)).map fun q => (q.1, RVal.num q.2) :=
      List.mem_map.mpr ⟨(p.1, (0 : ℚ)), hsorted, rfl⟩
    exact List.mem_cons_of_mem _ (List.mem_cons_of_mem _ (List.mem_cons_of_mem _ htail))
  · rw [map_fst_store, map_fst_store]

/-- Witness for C4 at a concrete failed solve. -/
theorem c4_failure_uniform_record_witness :
    ("infeasible" : String) ≠ "optimal"
    ∧ ("m[srn_tk,1]", RVal.num 0) ∈
        store_results_pd [("m[srn_tk,1]", 7)] [("alpha[rf]", 1)] "infeasible" "failed" 0
    ∧ (store_results_pd [("m[srn_tk,1]", 7)] [("alpha[rf]", 1)] "infeasible" "failed" 0).map
          Prod.fst
        = (store_results_pd [("m[srn_tk,1]", 7)] [("alpha[rf]", 1)] "optimal" "ok" 42).map
            Prod.fst := by
  refine ⟨by decide, ?_, ?_⟩
  · exact (c4_failure_uniform_record [("m[srn_tk,1]", 7)] [("alpha[rf]", 1)] "infeasible"
      "failed" "ok" 0 42 (by decide)).1 "m[srn_tk,1]" (by decide)
  · exact (c4_failure_uniform_record [("m[srn_tk,1]", 7)] [("alpha[rf]", 1)] "infeasible"
      "failed" "ok" 0 42 (by decide)).2

/-- C3 counterexample: the solver reports termination condition
`unbounded`, but the record stores the hardcoded string `infeasible`
under `Termination Condition`, not the solver-reported value. -/
theorem c3_counterexample :
    (store_results_pd [] [] "unbounded" "aborted" 0).get? 1
        = some ("Termination Condition", RVal.str "infeasible")
    ∧ RVal.str "infeasible" ≠ RVal.str "unbounded" := by
  refine ⟨rfl, by decide⟩

/-- C3 amended: for any non-optimal solver outcome the record's three
header entries are the constants `failed`, `infeasible` and objective 0 —
the solver-reported termination condition is discarded, not preserved. -/
theorem c3_amended_header_constants (vars alphas : List (String × ℚ))
    (tc status : String) (obj : ℚ) (h : tc ≠ "optimal") :
    (store_results_pd vars alphas tc status obj).take 3
      = [("Solver Status", RVal.str "failed"),
         ("Termination Condition", RVal.str "infeasible"),
         ("Objective", RVal.num 0)] := by
  simp only [store_results_pd, if_neg h]
  rfl

/-- Witness for the amended C3 at a concrete non-optimal solve. -/
theorem c3_amended_header_constants_witness :
    ("maxTimeLimit" : String) ≠ "optimal"
    ∧ (store_results_pd [("x[crude,1]", 3)] [] "maxTimeLimit" "aborted" 5).take 3
        = [("Solver Status", RVal.str "failed"),
           ("Termination Condition", RVal.str "infeasible"),
           ("Objective", RVal.num 0)] :=
  ⟨by decide, c3_amended_header_constants [("x[crude,1]", 3)] [] "maxTimeLimit" "aborted" 5
    (by decide)⟩

/-! ## The multiperiod abstract model (`RefineryOptimizationAbstract`) -/

/-- Materials of the network (`model.materials`). -/
inductive Mat where
  | crude | srg | srn | srds | srfo | rfg | ccg | ccfo | fg
  | pg_prod | rg_prod | df_prod | fo_prod
deriving DecidableEq

/-- Units of the network (origins and destinations of `map_to_units`). -/
inductive Unt where
  | crude_source | ad | rf | cc
  | srg_sp | srn_sp | srds_sp | srfo_sp | rfg_sp | ccg_sp | ccfo_sp
  | pg_tk | rg_tk | df_tk | fo_tk | srn_tk | rfg_tk | ccg_tk | ccfo_tk
  | fg_sink | pg_out | rg_out | df_out | fo_out
deriving DecidableEq

open Mat Unt

/-- A stream: (material, origin unit, destination unit). -/
abbrev Stream3 := Mat × Unt × Unt

/-- Source `self.timehorizon = 5`. -/
def timehorizon : Nat := 5

/-- Source `self.timedelta = 1`. -/
def timedelta : ℚ := 1

/-- Source `model.timeperiods = RangeSet(1, timehorizon, 1)` as a list. -/
def timeperiods : List Nat := List.range' 1 timehorizon

/-- An assignment of values to the model's decision variables and
parameters: flows `x[mat, uout, uin, t]`, tank inventories `m[tank, t]`
and the shutdown parameters `alpha['ad'|'rf'|'cc']`. -/
structure Asn where
  x : Mat → Unt → Unt → Nat → ℚ
  m : Unt → Nat → ℚ
  alpha : Unt → ℚ

/-- Source `self.map_to_units`: material ↦ set of (origin, destination) pairs. -/
def map_to_units : List (Mat × List (Unt × Unt)) :=
  [(crude, [(crude_source, ad)]),
   (srg, [(ad, srg_sp), (srg_sp, pg_tk), (srg_sp, rg_tk)]),
   (srn, [(ad, srn_sp), (srn_sp, rf), (srn_sp, pg_tk), (srn_sp, rg_tk), (srn_sp, df_tk),
          (srn_sp, srn_tk), (srn_tk, rf)]),
   (srds, [(ad, srds_sp), (srds_sp, cc), (srds_sp, df_tk), (srds_sp, fo_tk)]),
   (srfo, [(ad, srfo_sp), (srfo_sp, cc), (srfo_sp, df_tk), (srfo_sp, fo_tk)]),
   (rfg, [(rf, rfg_sp), (rfg_sp, pg_tk), (rfg_sp, rg_tk), (rf, rfg_tk), (rfg_tk, rfg_sp)]),
   (ccg, [(cc, ccg_sp), (ccg_sp, pg_tk), (ccg_sp, rg_tk), (cc, ccg_tk), (ccg_tk, ccg_sp)]),
   (ccfo, [(cc, ccfo_sp), (ccfo_sp, df_tk), (ccfo_sp, fo_tk), (cc, ccfo_tk), (ccfo_tk, ccfo_sp)]),
   (fg, [(ad, fg_sink), (rf, fg_sink), (cc, fg_sink)]),
   (pg_prod, [(pg_tk, pg_out)]),
   (rg_prod, [(rg_tk, rg_out)]),
   (df_prod, [(df_tk, df_out)]),
   (fo_prod, [(fo_tk, fo_out)])]

/-- The flow streams (material, origin, destination) of `model.flowpairs`
before time expansion. -/
def flowstreams : List Stream3 :=
  map_to_units.flatMap fun p => p.2.map fun u => (p.1, u.1, u.2)

/-- Source `self.splitpoint_dict`: split origin stream ↦ its split streams. -/
def splitpoint_dict : List (Stream3 × List Stream3) :=
  [((srg, ad, srg_sp), [(srg, srg_sp, pg_tk), (srg, srg_sp, rg_tk)]),
   ((srn, ad, srn_sp), [(srn, srn_sp, rf), (srn, srn_sp, pg_tk), (srn, srn_sp, rg_tk),
                        (srn, srn_sp, df_tk), (srn, srn_sp, srn_tk)]),
   ((srds, ad, srds_sp), [(srds, srds_sp, cc), (srds, srds_sp, df_tk), (srds, srds_sp, fo_tk)]),
   ((srfo, ad, srfo_sp), [(srfo, srfo_sp, cc), (srfo, srfo_sp, df_tk), (srfo, srfo_sp, fo_tk)]),
   ((rfg, rf, rfg_sp), [(rfg, rfg_sp, pg_tk), (rfg, rfg_sp, rg_tk)]),
   ((rfg, rfg_tk, rfg_sp), [(rfg, rfg_sp, pg_tk), (rfg, rfg_sp, rg_tk)]),
   ((ccg, cc, ccg_sp), [(ccg, ccg_sp, pg_tk), (ccg, ccg_sp, rg_tk)]),
   ((ccg, ccg_tk, ccg_sp), [(ccg, ccg_sp, pg_tk), (ccg, ccg_sp, rg_tk)]),
   ((ccfo, cc, ccfo_sp), [(ccfo, ccfo_sp, df_tk), (ccfo, ccfo_sp, fo_tk)]),
   ((ccfo, ccfo_tk, ccfo_sp), [(ccfo, ccfo_sp, df_tk), (ccfo, ccfo_sp, fo_tk)])]

/-- Association-list coefficient lookup (a Python dict access). -/
def coeff (l : List (Stream3 × ℚ)) (k : Stream3) : ℚ :=
  ((l.find? fun p => p.1 = k).map Prod.snd).getD 0

/-- Outlet streams of a split origin (`self.splitpoint_dict[key]`). -/
def spOutlets (k : Stream3) : List Stream3 :=
  ((splitpoint_dict.find? fun p => p.1 = k).map Prod.snd).getD []

/-- The split origin keys, in dict order. -/
def spKeys : List Stream3 := splitpoint_dict.map Prod.fst

/-- Keys of `self.splitpoint_dict_mp` in insertion order
(outer loop over periods, inner loop over the dict). -/
def mpKeys : List (Stream3 × Nat) :=
  timeperiods.flatMap fun t => spKeys.map fun k => (k, t)

/-- Source `self.splitpoint_dict_mp[key]`: the outlet streams tagged with the
key's period. -/
def mpOutlets (kt : Stream3 × Nat) : List (Stream3 × Nat) :=
  (spOutlets kt.1).map fun s => (s, kt.2)

/-- Python set equality of two outlet collections. -/
def sameOutlets (a b : List (Stream3 × Nat)) : Bool :=
  (a.all fun s => s ∈ b) && (b.all fun s => s ∈ a)

/-- Source `inlet_stream_list` of `splitpoint_balance`: all split-origin keys
whose outlet stream set equals the current key's outlet stream set. -/
def inletGroup (kt : Stream3 × Nat) : List (Stream3 × Nat) :=
  mpKeys.filter fun j => sameOutlets (mpOutlets j) (mpOutlets kt)

/-- Flow value of a (stream, period) key. -/
def xval (a : Asn) (kt : Stream3 × Nat) : ℚ :=
  a.x kt.1.1 kt.1.2.1 kt.1.2.2 kt.2

/-- The grouped inbound flow of `splitpoint_balance` at a key. -/
def groupInletSum (a : Asn) (kt : Stream3 × Nat) : ℚ :=
  ((inletGroup kt).map fun j => xval a j).sum

/-- The outbound flow of `splitpoint_balance` at a key. -/
def spOutletSum (a : Asn) (kt : Stream3 × Nat) : ℚ :=
  ((spOutlets kt.1).map fun s => a.x s.1 s.2.1 s.2.2 kt.2).sum

/-- Source `self.ad_yield_coef`. -/
def ad_yield_coef : List (Stream3 × ℚ) :=
  [((fg, ad, fg_sink), 35.42), ((srg, ad, srg_sp), 0.270), ((srn, ad, srn_sp), 0.237),
   ((srds, ad, srds_sp), 0.087), ((srfo, ad, srfo_sp), 0.372)]

/-- Source `self.rf_yield_coef`. -/
def rf_yield_coef : List (Stream3 × ℚ) :=
  [((fg, rf, fg_sink), 158.7), ((rfg, rf, rfg_sp), 0.928)]

/-- Source `self.cc_srds_yield_coef`. -/
def cc_srds_yield_coef : List (Stream3 × ℚ) :=
  [((fg, cc, fg_sink), 336.9), ((ccg, cc, ccg_sp), 0.619), ((ccfo, cc, ccfo_sp), 0.189)]

/-- Source `self.cc_srfo_yield_coef`. -/
def cc_srfo_yield_coef : List (Stream3 × ℚ) :=
  [((fg, cc, fg_sink), 386.4), ((ccg, cc, ccg_sp), 0.688), ((ccfo, cc, ccfo_sp), 0.2197)]

/-- Source `model.ad_outflows`. -/
def ad_outflows : List Stream3 :=
  [(fg, ad, fg_sink), (srg, ad, srg_sp), (srn, ad, srn_sp), (srds, ad, srds_sp),
   (srfo, ad, srfo_sp)]

/-- Source `model.rf_outflows`. -/
def rf_outflows : List Stream3 := [(fg, rf, fg_sink), (rfg, rf, rfg_sp)]

/-- Source `model.cc_outflows`. -/
def cc_outflows : List Stream3 := [(fg, cc, fg_sink), (ccg, cc, ccg_sp), (ccfo, cc, ccfo_sp)]

/-- Source `model.product_set` with `self.product_demand_data` (all 10000). -/
def product_set : List Stream3 :=
  [(pg_prod, pg_tk, pg_out), (rg_prod, rg_tk, rg_out), (df_prod, df_tk, df_out),
   (fo_prod, fo_tk, fo_out)]

/-- Source `self.product_demand_data`. -/
def product_demand_data : List (Stream3 × ℚ) :=
  [((pg_prod, pg_tk, pg_out), 10000), ((rg_prod, rg_tk, rg_out), 10000),
   ((df_prod, df_tk, df_out), 10000), ((fo_prod, fo_tk, fo_out), 10000)]

/-- Source `model.pg_set`. -/
def pg_set : List Stream3 :=
  [(srg, srg_sp, pg_tk), (rfg, rfg_sp, pg_tk), (srn, srn_sp, pg_tk), (ccg, ccg_sp, pg_tk)]

/-- Source `model.rg_set`. -/
def rg_set : List Stream3 :=
  [(srg, srg_sp, rg_tk), (rfg, rfg_sp, rg_tk), (srn, srn_sp, rg_tk), (ccg, ccg_sp, rg_tk)]

/-- Source `model.df_set`. -/
def df_set : List Stream3 :=
  [(srn, srn_sp, df_tk), (ccfo, ccfo_sp, df_tk), (srds, srds_sp, df_tk), (srfo, srfo_sp, df_tk)]

/-- Source `model.fo_set`. -/
def fo_set : List Stream3 :=
  [(ccfo, ccfo_sp, fo_tk), (srds, srds_sp, fo_tk), (srfo, srfo_sp, fo_tk)]

/-- Source `self.pg_octane_data`. -/
def pg_octane_data : List (Stream3 × ℚ) :=
  [((srg, srg_sp, pg_tk), 78.5), ((rfg, rfg_sp, pg_tk), 104), ((srn, srn_sp, pg_tk), 65),
   ((ccg, ccg_sp, pg_tk), 93.7)]

/-- Source `self.rg_octane_data`. -/
def rg_octane_data : List (Stream3 × ℚ) :=
  [((srg, srg_sp, rg_tk), 78.5), ((rfg, rfg_sp, rg_tk), 104), ((srn, srn_sp, rg_tk), 65),
   ((ccg, ccg_sp, rg_tk), 93.7)]

/-- Source `self.pg_vpress_data`. -/
def pg_vpress_data : List (Stream3 × ℚ) :=
  [((srg, srg_sp, pg_tk), 18.4), ((rfg, rfg_sp, pg_tk), 2.57), ((srn, srn_sp, pg_tk), 6.54),
   ((ccg, ccg_sp, pg_tk), 6.9)]

/-- Source `self.rg_vpress_data`. -/
def rg_vpress_data : List (Stream3 × ℚ) :=
  [((srg, srg_sp, rg_tk), 18.4), ((rfg, rfg_sp, rg_tk), 2.57), ((srn, srn_sp, rg_tk), 6.54),
   ((ccg, ccg_sp, rg_tk), 6.9)]

/-- Source `self.df_density_data`. -/
def df_density_data : List (Stream3 × ℚ) :=
  [((srn, srn_sp, df_tk), 272), ((ccfo, ccfo_sp, df_tk), 294.4), ((srds, srds_sp, df_tk), 292),
   ((srfo, srfo_sp, df_tk), 295)]

/-- Source `self.fo_density_data`. -/
def fo_density_data : List (Stream3 × ℚ) :=
  [((ccfo, ccfo_sp, fo_tk), 294.4), ((srds, srds_sp, fo_tk), 292), ((srfo, srfo_sp, fo_tk), 295)]

/-- Source `self.df_sulfur_data`. -/
def df_sulfur_data : List (Stream3 × ℚ) :=
  [((srn, srn_sp, df_tk), 0.283), ((ccfo, ccfo_sp, df_tk), 0.353), ((srds, srds_sp, df_tk), 0.526),
   ((srfo, srfo_sp, df_tk), 0.980)]

/-- Source `self.fo_sulfur_data`. -/
def fo_sulfur_data : List (Stream3 × ℚ) :=
  [((ccfo, ccfo_sp, fo_tk), 0.353), ((srds, srds_sp, fo_tk), 0.526), ((srfo, srfo_sp, fo_tk), 0.980)]

/-- Source `self.tank_list`. -/
def tank_list : List Unt := [srn_tk, rfg_tk, ccg_tk, ccfo_tk]

/-- Source `self.tank_in_dict`. -/
def tank_in_dict : Unt → List Stream3
  | srn_tk => [(srn, srn_sp, srn_tk)]
  | rfg_tk => [(rfg, rf, rfg_tk)]
  | ccg_tk => [(ccg, cc, ccg_tk)]
  | ccfo_tk => [(ccfo, cc, ccfo_tk)]
  | _ => []

/-- Source `self.tank_out_dict`. -/
def tank_out_dict : Unt → List Stream3
  | srn_tk => [(srn, srn_tk, rf)]
  | rfg_tk => [(rfg, rfg_tk, rfg_sp)]
  | ccg_tk => [(ccg, ccg_tk, ccg_sp)]
  | ccfo_tk => [(ccfo, ccfo_tk, ccfo_sp)]
  | _ => []

/-- Source `self.tank_height` (10 for every tank). -/
def tank_height_data (tk : Unt) : ℚ := if tk ∈ tank_list then 10 else 0

/-- Source `self.tank_radius` (5 for every tank). -/
def tank_radius_data (tk : Unt) : ℚ := if tk ∈ tank_list then 5 else 0

/-- The IEEE double value of `np.pi` used by the source when computing
tank areas, as an exact rational. -/
def npPi : ℚ := 884279719003555 / 281474976710656

/-- Source `self.tank_area`: `2*pi*r*h + pi*r^2` (lateral surface plus base). -/
def tank_area (tk : Unt) : ℚ :=
  2 * npPi * tank_radius_data tk * tank_height_data tk + npPi * tank_radius_data tk ^ 2

/-- Source `self.bbl_to_m3 = 0.158`. -/
def bbl_to_m3 : ℚ := 0.158

/-- Inflow sum of a tank at a period (`tank_balance`). -/
def tankInflow (a : Asn) (tk : Unt) (t : Nat) : ℚ :=
  ((tank_in_dict tk).map fun s => a.x s.1 s.2.1 s.2.2 t).sum

/-- Outflow sum of a tank at a period (`tank_balance`). -/
def tankOutflow (a : Asn) (tk : Unt) (t : Nat) : ℚ :=
  ((tank_out_dict tk).map fun s => a.x s.1 s.2.1 s.2.2 t).sum

/-- Non-negativity of all declared variables
(`domain=pyomo.NonNegativeReals` for `model.x` and `model.m`). -/
def checkNonneg (a : Asn) : Bool :=
  (flowstreams.all fun s => timeperiods.all fun t => decide (0 ≤ a.x s.1 s.2.1 s.2.2 t)) &&
  (tank_list.all fun tk => timeperiods.all fun t => decide (0 ≤ a.m tk t))

/-- Source `splitpoint_balance` over `model.splitpoint_set`: the summed flow of
all inlet keys sharing the current key's outlet set, minus the summed
outlet flow, equals 0. -/
def checkSplitpoint (a : Asn) : Bool :=
  mpKeys.all fun kt => decide (groupInletSum a kt - spOutletSum a kt = 0)

/-- Capacity constraints `ad_crude_limit`, `ad_capacity`, `rf_capacity`
and `cc_capacity` (the last three scale the feed flow by
`(1 - model.alpha[unit])`). -/
def checkCapacity (a : Asn) : Bool :=
  timeperiods.all fun t =>
    decide (a.x crude crude_source ad t ≤ 110000) &&
    decide (a.x crude crude_source ad t * (1 - a.alpha ad) ≤ 100000) &&
    decide ((a.x srn srn_sp rf t + a.x srn srn_tk rf t) * (1 - a.alpha rf) ≤ 25000) &&
    decide ((a.x srds srds_sp cc t + a.x srfo srfo_sp cc t) * (1 - a.alpha cc) ≤ 30000)

/-- Source `ad_yield` constraints. -/
def checkAdYield (a : Asn) : Bool :=
  ad_outflows.all fun k => timeperiods.all fun t =>
    decide (a.x k.1 k.2.1 k.2.2 t = a.x crude crude_source ad t * coeff ad_yield_coef k)

/-- Source `rf_yield` constraints, with the tank-fed outlet branch for `rfg`. -/
def checkRfYield (a : Asn) : Bool :=
  rf_outflows.all fun k => timeperiods.all fun t =>
    if k.1 = rfg then
      decide (a.x k.1 k.2.1 k.2.2 t + a.x k.1 rf rfg_tk t
        = a.x srn srn_sp rf t * coeff rf_yield_coef k
          + a.x srn srn_tk rf t * coeff rf_yield_coef k)
    else
      decide (a.x k.1 k.2.1 k.2.2 t
        = a.x srn srn_sp rf t * coeff rf_yield_coef k
          + a.x srn srn_tk rf t * coeff rf_yield_coef k)

/-- Source `cc_yield` constraints, with the tank-fed outlet branches for `ccg`
and `ccfo`. -/
def checkCcYield (a : Asn) : Bool :=
  cc_outflows.all fun k => timeperiods.all fun t =>
    if k.1 = ccg then
      decide (a.x k.1 k.2.1 k.2.2 t + a.x k.1 cc ccg_tk t
        = a.x srds srds_sp cc t * coeff cc_srds_yield_coef k
          + a.x srfo srfo_sp cc t * coeff cc_srfo_yield_coef k)
    else if k.1 = ccfo then
      decide (a.x k.1 k.2.1 k.2.2 t + a.x k.1 cc ccfo_tk t
        = a.x srds srds_sp cc t * coeff cc_srds_yield_coef k
          + a.x srfo srfo_sp cc t * coeff cc_srfo_yield_coef k)
    else
      decide (a.x k.1 k.2.1 k.2.2 t
        = a.x srds srds_sp cc t * coeff cc_srds_yield_coef k
          + a.x srfo srfo_sp cc t * coeff cc_srfo_yield_coef k)

/-- Source `product_demand` constraints. -/
def checkDemand (a : Asn) : Bool :=
  product_set.all fun k => timeperiods.all fun t =>
    decide (a.x k.1 k.2.1 k.2.2 t ≥ coeff product_demand_data k)

/-- Blend tank balance constraints `pg_balance` … `fo_balance`. -/
def checkBlend (a : Asn) : Bool :=
  timeperiods.all fun t =>
    decide (a.x pg_prod pg_tk pg_out t = (pg_set.map fun s => a.x s.1 s.2.1 s.2.2 t).sum) &&
    decide (a.x rg_prod rg_tk rg_out t = (rg_set.map fun s => a.x s.1 s.2.1 s.2.2 t).sum) &&
    decide (a.x df_prod df_tk df_out t = (df_set.map fun s => a.x s.1 s.2.1 s.2.2 t).sum) &&
    decide (a.x fo_prod fo_tk fo_out t = (fo_set.map fun s => a.x s.1 s.2.1 s.2.2 t).sum)

/-- Product quality constraints `pg_octane` … `fo_sulfur`. -/
def checkQuality (a : Asn) : Bool :=
  timeperiods.all fun t =>
    decide ((pg_set.map fun s => a.x s.1 s.2.1 s.2.2 t * coeff pg_octane_data s).sum
      - 93 * a.x pg_prod pg_tk pg_out t ≥ 0) &&
    decide ((pg_set.map fun s => a.x s.1 s.2.1 s.2.2 t * coeff pg_vpress_data s).sum
      - 12.7 * a.x pg_prod pg_tk pg_out t ≤ 0) &&
    decide ((rg_set.map fun s => a.x s.1 s.2.1 s.2.2 t * coeff rg_octane_data s).sum
      - 83 * a.x rg_prod rg_tk rg_out t ≥ 0) &&
    decide ((rg_set.map fun s => a.x s.1 s.2.1 s.2.2 t * coeff rg_vpress_data s).sum
      - 12.7 * a.x rg_prod rg_tk rg_out t ≤ 0) &&
    decide ((df_set.map fun s => a.x s.1 s.2.1 s.2.2 t * coeff df_density_data s).sum
      - 306 * a.x df_prod df_tk df_out t ≤ 0) &&
    decide ((df_set.map fun s => a.x s.1 s.2.1 s.2.2 t * coeff df_sulfur_data s).sum
      - 0.50 * a.x df_prod df_tk df_out t ≤ 0) &&
    decide ((fo_set.map fun s => a.x s.1 s.2.1 s.2.2 t * coeff fo_density_data s).sum
      - 352 * a.x fo_prod fo_tk fo_out t ≤ 0) &&
    decide ((fo_set.map fun s => a.x s.1 s.2.1 s.2.2 t * coeff fo_sulfur_data s).sum
      - 3.0 * a.x fo_prod fo_tk fo_out t ≤ 0)

/-- Source `tank_balance` constraints: period 1 uses an assumed-zero previous
inventory, later periods the previous period's inventory. -/
def checkTankBalance (a : Asn) : Bool :=
  tank_list.all fun tk => timeperiods.all fun t =>
    if t = 1 then
      decide ((a.m tk t - 0) / timedelta - tankInflow a tk t + tankOutflow a tk t = 0)
    else
      decide ((a.m tk t - a.m tk (t - 1)) / timedelta - tankInflow a tk t + tankOutflow a tk t = 0)

/-- Source `tank_height` constraints. -/
def checkTankHeight (a : Asn) : Bool :=
  tank_list.all fun tk => timeperiods.all fun t =>
    decide (a.m tk t * bbl_to_m3 / tank_area tk ≤ tank_height_data tk)

/-- All constraint families of the built model instance. -/
def checkModel (a : Asn) : Bool :=
  checkNonneg a && checkSplitpoint a && checkCapacity a && checkAdYield a &&
  checkRfYield a && checkCcYield a && checkDemand a && checkBlend a &&
  checkQuality a && checkTankBalance a && checkTankHeight a

/-- An assignment satisfies the built model's constraints. -/
def satisfiesModel (a : Asn) : Prop := checkModel a = true

/-- Per-stream flow values of a concrete assignment, replicated over all
periods: a feasible operating point of the model in which the reformer
shutdown flag is 1 yet the reformer feed is 20000 per period. -/
def cexFlow : Mat → Unt → Unt → ℚ
  | crude, crude_source, ad => 100000
  | fg, ad, fg_sink => 3542000
  | fg, rf, fg_sink => 3174000
  | fg, cc, fg_sink => 5548500
  | srg, ad, srg_sp => 27000
  | srg, srg_sp, pg_tk => 10000
  | srg, srg_sp, rg_tk => 17000
  | srn, ad, srn_sp => 23700
  | srn, srn_sp, rf => 20000
  | srn, srn_sp, df_tk => 3700
  | srds, ad, srds_sp => 8700
  | srds, srds_sp, cc => 5000
  | srds, srds_sp, df_tk => 3158
  | srds, srds_sp, fo_tk => 542
  | srfo, ad, srfo_sp => 37200
  | srfo, srfo_sp, cc => 10000
  | srfo, srfo_sp, fo_tk => 27200
  | rfg, rf, rfg_sp => 18560
  | rfg, rfg_sp, pg_tk => 14560
  | rfg, rfg_sp, rg_tk => 4000
  | ccg, cc, ccg_sp => 9975
  | ccg, ccg_sp, rg_tk => 9975
  | ccfo, cc, ccfo_sp => 3142
  | ccfo, ccfo_sp, df_tk => 3142
  | pg_prod, pg_tk, pg_out => 24560
  | rg_prod, rg_tk, rg_out => 30975
  | df_prod, df_tk, df_out => 10000
  | fo_prod, fo_tk, fo_out => 27742
  | _, _, _ => 0

/-- The concrete assignment: tank flows and inventories 0, the reformer
shutdown flag `alpha['rf']` set to 1, other flags 0. -/
def cexAsn : Asn where
  x := fun mt uo ui _ => cexFlow mt uo ui
  m := fun _ _ => 0
  alpha := fun u => if u = rf then 1 else 0

section DecideRat

attribute [local semireducible] Rat.add Rat.sub Rat.mul Rat.inv Rat.ofScientific

set_option maxHeartbeats 2000000 in
theorem cexAsn_sat : satisfiesModel cexAsn := by
  unfold satisfiesModel
  decide

end DecideRat

theorem satisfies_split {a : Asn} (h : satisfiesModel a) :
    ∀ kt ∈ mpKeys, groupInletSum a kt - spOutletSum a kt = 0 := by
  unfold satisfiesModel checkModel at h
  simp only [Bool.and_eq_true] at h
  have hs := h.1.1.1.1.1.1.1.1.1.2
  rw [checkSplitpoint, List.all_eq_true] at hs
  intro kt hkt
  exact decide_eq_true_iff.mp (hs kt hkt)

theorem satisfies_tank_balance {a : Asn} (h : satisfiesModel a) :
    checkTankBalance a = true := by
  unfold satisfiesModel checkModel at h
  simp only [Bool.and_eq_true] at h
  exact h.1.2

theorem satisfies_rf_yield {a : Asn} (h : satisfiesModel a) :
    checkRfYield a = true := by
  unfold satisfiesModel checkModel at h
  simp only [Bool.and_eq_true] at h
  exact h.1.1.1.1.1.1.2

theorem satisfies_cc_yield {a : Asn} (h : satisfiesModel a) :
    checkCcYield a = true := by
  unfold satisfiesModel checkModel at h
  simp only [Bool.and_eq_true] at h
  exact h.1.1.1.1.1.2

/-- C5: in every assignment satisfying the model's constraints, for every
tank and period `t > 1` the inventory equals the previous period's
inventory plus `timedelta` times net inflow; at `t = 1` the previous
inventory is taken to be 0. -/
theorem c5_tank_recurrence (a : Asn) (h : satisfiesModel a) :
    ∀ tk ∈ tank_list, ∀ t ∈ timeperiods,
      a.m tk t = (if t = 1 then 0 else a.m tk (t - 1))
        + timedelta * (tankInflow a tk t - tankOutflow a tk t) := by
  intro tk htk t ht
  have hb := satisfies_tank_balance h
  rw [checkTankBalance, List.all_eq_true] at hb
  have hb2 := hb tk htk
  rw [List.all_eq_true] at hb2
  have hb3 := hb2 t ht
  by_cases h1 : t = 1
  · rw [if_pos h1] at hb3 ⊢
    rw [decide_eq_true_iff] at hb3
    rw [timedelta] at hb3 ⊢
    rw [div_one] at hb3
    linarith
  · rw [if_neg h1] at hb3 ⊢
    rw [decide_eq_true_iff] at hb3
    rw [timedelta] at hb3 ⊢
    rw [div_one] at hb3
    linarith

/-- Witness for C5: the concrete satisfying assignment `cexAsn` at tank
`srn_tk`, period 2. -/
theorem c5_tank_recurrence_witness :
    satisfiesModel cexAsn ∧ srn_tk ∈ tank_list ∧ 2 ∈ timeperiods
    ∧ cexAsn.m srn_tk 2 = (if (2 : Nat) = 1 then 0 else cexAsn.m srn_tk (2 - 1))
        + timedelta * (tankInflow cexAsn srn_tk 2 - tankOutflow cexAsn srn_tk 2) :=
  ⟨cexAsn_sat, by decide, by decide,
    c5_tank_recurrence cexAsn cexAsn_sat srn_tk (by decide) 2 (by decide)⟩

theorem c6_aux (a : Asn) (hall : ∀ kt ∈ mpKeys, groupInletSum a kt - spOutletSum a kt = 0)
    (t : Nat) (hmem : ((rfg, rf, rfg_sp), t) ∈ mpKeys)
    (hgrp : inletGroup ((rfg, rf, rfg_sp), t)
      = [((rfg, rf, rfg_sp), t), ((rfg, rfg_tk, rfg_sp), t)]) :
    a.x rfg rf rfg_sp t + a.x rfg rfg_tk rfg_sp t
      = a.x rfg rfg_sp pg_tk t + a.x rfg rfg_sp rg_tk t := by
  have hb := hall _ hmem
  have hout : spOutlets (rfg, rf, rfg_sp) = [(rfg, rfg_sp, pg_tk), (rfg, rfg_sp, rg_tk)] := by
    decide
  rw [groupInletSum, spOutletSum, hgrp] at hb
  rw [show ((rfg, rf, rfg_sp), t).1 = (rfg, rf, rfg_sp) from rfl, hout] at hb
  simp only [List.map_cons, List.map_nil, List.sum_cons, List.sum_nil, xval] at hb
  linarith

/-- C6: in every satisfying assignment, every split-point balance holds
with the inbound side grouped by outbound-set equality; in particular the
tank-bypass key `('rfg','rf','rfg_sp')` is grouped with the tank-fed key
`('rfg','rfg_tk','rfg_sp')` (they share one outbound stream set), and
their combined inflow equals the shared outbound total. -/
theorem c6_splitpoint_grouped_balance (a : Asn) (h : satisfiesModel a) :
    (∀ kt ∈ mpKeys, groupInletSum a kt = spOutletSum a kt)
    ∧ ∀ t ∈ timeperiods,
        inletGroup ((rfg, rf, rfg_sp), t)
            = [((rfg, rf, rfg_sp), t), ((rfg, rfg_tk, rfg_sp), t)]
        ∧ a.x rfg rf rfg_sp t + a.x rfg rfg_tk rfg_sp t
            = a.x rfg rfg_sp pg_tk t + a.x rfg rfg_sp rg_tk t := by
  have hall := satisfies_split h
  refine ⟨fun kt hkt => by have := hall kt hkt; linarith, ?_⟩
  intro t ht
  rw [show timeperiods = [1, 2, 3, 4, 5] from by decide] at ht
  fin_cases ht
  · exact ⟨by decide, c6_aux a hall 1 (by decide) (by decide)⟩
  · exact ⟨by decide, c6_aux a hall 2 (by decide) (by decide)⟩
  · exact ⟨by decide, c6_aux a hall 3 (by decide) (by decide)⟩
  · exact ⟨by decide, c6_aux a hall 4 (by decide) (by decide)⟩
  · exact ⟨by decide, c6_aux a hall 5 (by decide) (by decide)⟩

/-- Witness for C6: the concrete satisfying assignment `cexAsn`, period 3:
18560 + 0 = 14560 + 4000. -/
theorem c6_splitpoint_grouped_balance_witness :
    satisfiesModel cexAsn ∧ 3 ∈ timeperiods
    ∧ cexAsn.x rfg rf rfg_sp 3 + cexAsn.x rfg rfg_tk rfg_sp 3
        = cexAsn.x rfg rfg_sp pg_tk 3 + cexAsn.x rfg rfg_sp rg_tk 3 :=
  ⟨cexAsn_sat, by decide,
    (((c6_splitpoint_grouped_balance cexAsn cexAsn_sat).2 3 (by decide)).2)⟩

/-- C7: in every satisfying assignment, for every period, the yield
equation of each conversion-unit output that splits between a direct
outlet and a tank inlet (`rfg` at the reformer, `ccg` and `ccfo` at the
cracker) has as left-hand side the sum of both outlet streams, equal to
the yield coefficient times the feed flow (summed linearly over the
cracker's two feeds); outputs with no tank (`fg`) use the single outlet
stream alone. -/
theorem c7_yield_tank_outlets (a : Asn) (h : satisfiesModel a) :
    ∀ t ∈ timeperiods,
      (a.x rfg rf rfg_sp t + a.x rfg rf rfg_tk t
          = a.x srn srn_sp rf t * 0.928 + a.x srn srn_tk rf t * 0.928)
      ∧ (a.x fg rf fg_sink t = a.x srn srn_sp rf t * 158.7 + a.x srn srn_tk rf t * 158.7)
      ∧ (a.x ccg cc ccg_sp t + a.x ccg cc ccg_tk t
          = a.x srds srds_sp cc t * 0.619 + a.x srfo srfo_sp cc t * 0.688)
      ∧ (a.x ccfo cc ccfo_sp t + a.x ccfo cc ccfo_tk t
          = a.x srds srds_sp cc t * 0.189 + a.x srfo srfo_sp cc t * 0.2197)
      ∧ (a.x fg cc fg_sink t = a.x srds srds_sp cc t * 336.9 + a.x srfo srfo_sp cc t * 386.4) := by
  intro t ht
  have hrf := satisfies_rf_yield h
  have hcc := satisfies_cc_yield h
  rw [checkRfYield, List.all_eq_true] at hrf
  rw [checkCcYield, List.all_eq_true] at hcc
  refine ⟨?_, ?_, ?_, ?_, ?_⟩
  · have h1 := hrf (rfg, rf, rfg_sp) (by decide)
    rw [List.all_eq_true] at h1
    have h2 := h1 t ht
    rw [if_pos rfl, decide_eq_true_iff] at h2
    exact h2
  · have h1 := hrf (fg, rf, fg_sink) (by decide)
    rw [List.all_eq_true] at h1
    have h2 := h1 t ht
    rw [if_neg (by decide : ¬((fg, rf, fg_sink) : Stream3).1 = rfg),
      decide_eq_true_iff] at h2
    exact h2
  · have h1 := hcc (ccg, cc, ccg_sp) (by decide)
    rw [List.all_eq_true] at h1
    have h2 := h1 t ht
    rw [if_pos rfl, decide_eq_true_iff] at h2
    exact h2
  · have h1 := hcc (ccfo, cc, ccfo_sp) (by decide)
    rw [List.all_eq_true] at h1
    have h2 := h1 t ht
    rw [if_neg (by decide : ¬((ccfo, cc, ccfo_sp) : Stream3).1 = ccg), if_pos rfl,
      decide_eq_true_iff] at h2
    exact h2
  · have h1 := hcc (fg, cc, fg_sink) (by decide)
    rw [List.all_eq_true] at h1
    have h2 := h1 t ht
    rw [if_neg (by decide : ¬((fg, cc, fg_sink) : Stream3).1 = ccg),
      if_neg (by decide : ¬((fg, cc, fg_sink) : Stream3).1 = ccfo),
      decide_eq_true_iff] at h2
    exact h2

/-- Witness for C7: the concrete satisfying assignment `cexAsn`,
period 1: 18560 + 0 = 20000·0.928 + 0·0.928. -/
theorem c7_yield_tank_outlets_witness :
    satisfiesModel cexAsn ∧ 1 ∈ timeperiods
    ∧ cexAsn.x rfg rf rfg_sp 1 + cexAsn.x rfg rf rfg_tk 1
        = cexAsn.x srn srn_sp rf 1 * 0.928 + cexAsn.x srn srn_tk rf 1 * 0.928 :=
  ⟨cexAsn_sat, by decide, (c7_yield_tank_outlets cexAsn cexAsn_sat 1 (by decide)).1⟩

section DecideRatCex

attribute [local semireducible] Rat.add Rat.sub Rat.mul Rat.inv Rat.ofScientific

/-- C1 fails on the code: `cexAsn` satisfies every constraint of the
built model while the reformer shutdown flag `alpha['rf']` is 1 and the
reformer feed flow is 20000 (not 0) in every period — with `alpha = 1`
the constraint `feed * (1 - alpha) <= 25000` reduces to `0 <= 25000`,
which is vacuous instead of forcing zero throughput. -/
theorem c1_shutdown_vacuous_at_cexAsn :
    satisfiesModel cexAsn ∧ cexAsn.alpha rf = 1
    ∧ cexAsn.x srn srn_sp rf 4 + cexAsn.x srn srn_tk rf 4 = 20000
    ∧ ((20000 : ℚ) ≠ 0)
    ∧ (cexAsn.x srn srn_sp rf 4 + cexAsn.x srn srn_tk rf 4) * (1 - cexAsn.alpha rf) = 0 :=
  ⟨cexAsn_sat, by decide, by decide, by decide, by decide⟩

end DecideRatCex

/-! ## The scenario controller (case studies 2 and 5)

The case studies drive a model instance built by `RefineryModel`
(`src/refinery_problem/model.py`, the concrete twin of the in-src
abstract model): its time periods are `RangeSet(1, 5, 1)` as in
`RefineryOptimizationAbstract` and in the plotting helpers, and its
shutdown parameter `alpha` is indexed by (unit, period) pairs, all 0 at
build time. -/

/-- Python `range(start, stop, step)` for a positive step. -/
def pyRange (start stop step : Nat) : List Nat :=
  (List.range ((stop - start + step - 1) / step)).map fun i => start + step * i

/-- Source `opt_model.timeperiods.ordered_data()[-1]`: the last period. -/
def tpLast : Nat := timeperiods.getLastD 0

/-- Source `opt_model.timeperiods.ordered_data()[-2]`: the second-to-last period. -/
def tpSecondLast : Nat := timeperiods.dropLast.getLastD 0

/-- The period loop of the fixed-schedule variant:
`range(1, last + 1, last - second_last)`. -/
def fixSchedulePeriods : List Nat := pyRange 1 (tpLast + 1) (tpLast - tpSecondLast)

/-- The streams fixed to zero before the scenario loop of
`case_study_02.execute_optimization`: the SRN, RFG and CCFO tank inlet
streams, at each period produced by the loop. -/
def caseStudy02FixedStreams : List (Stream3 × Nat) :=
  fixSchedulePeriods.flatMap fun t =>
    [((srn, srn_sp, srn_tk), t), ((rfg, rf, rfg_tk), t), ((ccfo, cc, ccfo_tk), t)]

/-- Source `shutdown_conditions` of case studies 2 and 5: scenario id ↦ list of
`(unit, tier)` pairs whose alpha parameter the scenario sets. -/
def shutdown_conditions : List (Nat × List (Unt × Nat)) :=
  [(1, [(cc, 3)]), (2, [(cc, 2), (cc, 3)]), (3, [(rf, 3)]), (4, [(rf, 2), (rf, 3)]),
   (5, [(rf, 3), (cc, 1)]), (6, [(rf, 3), (cc, 2)]), (7, [(rf, 3), (cc, 3)]),
   (8, [(rf, 1), (cc, 4)]), (9, [(rf, 2), (cc, 4)]), (10, [(rf, 3), (cc, 4)])]

/-- Mutable state of the shared model instance as the controller sees it:
the shutdown parameters `alpha[unit, tier]` and the streams currently
fixed to zero. -/
structure CtrlState where
  alphaP : Unt × Nat → ℚ
  fixedZero : List (Stream3 × Nat)

/-- Source `opt_model.alpha[u, i] = v` executed for each pair of the list. -/
def setAlphas (ps : List (Unt × Nat)) (v : ℚ) (f : Unt × Nat → ℚ) : Unt × Nat → ℚ :=
  ps.foldl (fun g p => fun q => if q = p then v else g q) f

/-- One solve's observable state: the scenario id, its pair list, and the
alpha assignment and fixed-zero schedule in effect when the solver runs. -/
structure SolveRecord where
  caseId : Nat
  pairs : List (Unt × Nat)
  alphaAtSolve : Unt × Nat → ℚ
  fixedAtSolve : List (Stream3 × Nat)

/-- The scenario loop shared by the case studies: for each scenario, set
its alpha pairs to 1, solve (observed as a `SolveRecord`), then reset the
same pairs to 0. The loop body never touches the fixed-zero schedule. -/
def runScenarios : List (Nat × List (Unt × Nat)) → CtrlState → CtrlState × List SolveRecord
  | [], st => (st, [])
  | (c, ps) :: rest, st =>
    let a1 := setAlphas ps 1 st.alphaP
    let st2 : CtrlState := { alphaP := setAlphas ps 0 a1, fixedZero := st.fixedZero }
    let out := runScenarios rest st2
    (out.1, ⟨c, ps, a1, st.fixedZero⟩ :: out.2)

/-- Source `case_study_02.execute_optimization`: fix the designated tank inlet
streams to zero for the loop's periods, then run every shutdown scenario
in order on the same instance. `alpha0` is the instance's alpha
assignment as built. -/
def caseStudy02Run (alpha0 : Unt × Nat → ℚ) : CtrlState × List SolveRecord :=
  runScenarios shutdown_conditions
    { alphaP := alpha0, fixedZero := caseStudy02FixedStreams }

theorem runScenarios_fixed (ss : List (Nat × List (Unt × Nat))) (st : CtrlState) :
    ∀ r ∈ (runScenarios ss st).2, r.fixedAtSolve = st.fixedZero := by
  induction ss generalizing st with
  | nil => intro r hr; simp [runScenarios] at hr
  | cons s rest ih =>
    intro r hr
    obtain ⟨c, ps⟩ := s
    simp only [runScenarios] at hr
    rcases List.mem_cons.mp hr with hr1 | hr2
    · rw [hr1]
    · exact ih ⟨setAlphas ps 0 (setAlphas ps 1 st.alphaP), st.fixedZero⟩ r hr2

theorem setAlphas_eq (ps : List (Unt × Nat)) (v : ℚ) (f : Unt × Nat → ℚ) (k : Unt × Nat) :
    setAlphas ps v f k = if k ∈ ps then v else f k := by
  induction ps generalizing f with
  | nil => simp [setAlphas]
  | cons p rest ih =>
    show setAlphas rest v (fun q => if q = p then v else f q) k = _
    rw [ih]
    by_cases h1 : k ∈ rest
    · simp [h1, List.mem_cons]
    · by_cases h2 : k = p <;> simp [h1, h2, List.mem_cons]

theorem runScenarios_alpha (ss : List (Nat × List (Unt × Nat))) (st : CtrlState)
    (h0 : ∀ k, st.alphaP k = 0) :
    (∀ k, ((runScenarios ss st).1).alphaP k = 0)
    ∧ ∀ r ∈ (runScenarios ss st).2, ∀ k,
        r.alphaAtSolve k = if k ∈ r.pairs then 1 else 0 := by
  induction ss generalizing st with
  | nil => exact ⟨h0, by intro r hr; simp [runScenarios] at hr⟩
  | cons s rest ih =>
    obtain ⟨c, ps⟩ := s
    have hst2 : ∀ k, (setAlphas ps 0 (setAlphas ps 1 st.alphaP)) k = 0 := by
      intro k
      rw [setAlphas_eq, setAlphas_eq]
      by_cases h : k ∈ ps <;> simp [h, h0 k]
    have hrec := ih ⟨setAlphas ps 0 (setAlphas ps 1 st.alphaP), st.fixedZero⟩ hst2
    constructor
    · exact hrec.1
    · intro r hr
      simp only [runScenarios] at hr
      rcases List.mem_cons.mp hr with hr1 | hr2
      · intro k
        rw [hr1]
        show setAlphas ps 1 st.alphaP k = _
        rw [setAlphas_eq]
        by_cases h : k ∈ ps <;> simp [h, h0 k]
      · exact hrec.2 r hr2

/-- C2 counterexample: the fixed-schedule loop of case study 2 fixes the
SRN tank inlet at period 2, which is neither the first period nor the
last — the claim that only the horizon's two endpoints are fixed is
false (the loop's stride `last − second_last` evaluates to 1). -/
theorem c2_counterexample :
    ((srn, srn_sp, srn_tk), 2) ∈ caseStudy02FixedStreams
    ∧ (2 : Nat) ≠ 1 ∧ (2 : Nat) ≠ tpLast := by decide

/-- C2 amended: the fixed-schedule variant fixes the designated
buffer-tank streams to zero at EVERY period of the horizon (the loop
stride `last − second_last` is 1), before the scenario loop begins, and
the loop never unfixes them, so the forced-zero schedule in effect is
identical during every scenario's solve. -/
theorem c2_fixed_schedule (alpha0 : Unt × Nat → ℚ) :
    fixSchedulePeriods = timeperiods
    ∧ (∀ t ∈ timeperiods, ((srn, srn_sp, srn_tk), t) ∈ caseStudy02FixedStreams
        ∧ ((rfg, rf, rfg_tk), t) ∈ caseStudy02FixedStreams
        ∧ ((ccfo, cc, ccfo_tk), t) ∈ caseStudy02FixedStreams)
    ∧ ∀ r ∈ (caseStudy02Run alpha0).2, r.fixedAtSolve = caseStudy02FixedStreams := by
  refine ⟨by decide, by decide, ?_⟩
  intro r hr
  exact runScenarios_fixed shutdown_conditions _ r hr

/-- C9: with all shutdown flags 0 at build time, every scenario's solve
sees exactly its own `(unit, tier)` pairs at 1 and all other flags at 0,
and after the whole run every flag is back to 0. -/
theorem c9_alpha_reset (alpha0 : Unt × Nat → ℚ) (h0 : ∀ k, alpha0 k = 0) :
    (∀ k, ((caseStudy02Run alpha0).1).alphaP k = 0)
    ∧ ∀ r ∈ (caseStudy02Run alpha0).2, ∀ k,
        r.alphaAtSolve k = if k ∈ r.pairs then 1 else 0 :=
  runScenarios_alpha shutdown_conditions _ h0

/-- Witness for C9 with the pristine all-zero alpha assignment. -/
theorem c9_alpha_reset_witness :
    ((caseStudy02Run fun _ => 0).1).alphaP (rf, 3) = 0
    ∧ ((caseStudy02Run fun _ => 0).1).alphaP (cc, 4) = 0 :=
  ⟨(c9_alpha_reset (fun _ => 0) fun _ => rfl).1 (rf, 3),
   (c9_alpha_reset (fun _ => 0) fun _ => rfl).1 (cc, 4)⟩

/-! ## `helpers.print_output` -/

/-- Division as performed by Python on solver values: dividing by zero
raises `ZeroDivisionError`, modelled as `none`. -/
def safeDiv (a b : ℚ) : Option ℚ := if b = 0 then none else some (a / b)

/-- A blend-quality weighted sum, e.g.
`sum(x[s, t] * pg_octane_rating[s] for s in pg_set)`. -/
def blendSum (a : Asn) (s : List Stream3) (data : List (Stream3 × ℚ)) (t : Nat) : ℚ :=
  (s.map fun k => a.x k.1 k.2.1 k.2.2 t * coeff data k).sum

/-- The eight quality prints of one period of `print_output`, each
dividing a blend-quality sum by the corresponding product output flow. -/
def periodQual (a : Asn) (t : Nat) : Option (List ℚ) :=
  (safeDiv (blendSum a pg_set pg_octane_data t) (a.x pg_prod pg_tk pg_out t)).bind fun q1 =>
  (safeDiv (blendSum a pg_set pg_vpress_data t) (a.x pg_prod pg_tk pg_out t)).bind fun q2 =>
  (safeDiv (blendSum a rg_set rg_octane_data t) (a.x rg_prod rg_tk rg_out t)).bind fun q3 =>
  (safeDiv (blendSum a rg_set rg_vpress_data t) (a.x rg_prod rg_tk rg_out t)).bind fun q4 =>
  (safeDiv (blendSum a df_set df_density_data t) (a.x df_prod df_tk df_out t)).bind fun q5 =>
  (safeDiv (blendSum a df_set df_sulfur_data t) (a.x df_prod df_tk df_out t)).bind fun q6 =>
  (safeDiv (blendSum a fo_set fo_density_data t) (a.x fo_prod fo_tk fo_out t)).bind fun q7 =>
  (safeDiv (blendSum a fo_set fo_sulfur_data t) (a.x fo_prod fo_tk fo_out t)).bind fun q8 =>
  some [q1, q2, q3, q4, q5, q6, q7, q8]

/-- The period loop of `print_output`'s quality section. -/
def printOutputQual (a : Asn) : List Nat → Option (List (List ℚ))
  | [] => some []
  | t :: ts =>
    (periodQual a t).bind fun q => (printOutputQual a ts).bind fun rest => some (q :: rest)

/-- The quality-reporting part of `helpers.print_output` over the model's
periods: `none` models the `ZeroDivisionError` escape. -/
def print_output (a : Asn) : Option (List (List ℚ)) := printOutputQual a timeperiods

theorem periodQual_none_iff (a : Asn) (t : Nat) :
    periodQual a t = none ↔
      a.x pg_prod pg_tk pg_out t = 0 ∨ a.x rg_prod rg_tk rg_out t = 0
      ∨ a.x df_prod df_tk df_out t = 0 ∨ a.x fo_prod fo_tk fo_out t = 0 := by
  by_cases h1 : a.x pg_prod pg_tk pg_out t = 0 <;>
  by_cases h2 : a.x rg_prod rg_tk rg_out t = 0 <;>
  by_cases h3 : a.x df_prod df_tk df_out t = 0 <;>
  by_cases h4 : a.x fo_prod fo_tk fo_out t = 0 <;>
  simp [periodQual, safeDiv, h1, h2, h3, h4]

theorem printOutputQual_none (a : Asn) (ts : List Nat) (t : Nat) (ht : t ∈ ts)
    (h : periodQual a t = none) : printOutputQual a ts = none := by
  induction ts with
  | nil => cases ht
  | cons s rest ih =>
    rcases List.mem_cons.mp ht with rfl | h2
    · simp [printOutputQual, h]
    · cases hq : periodQual a s <;> simp [printOutputQual, hq, ih h2]

theorem printOutputQual_isSome (a : Asn) (ts : List Nat)
    (h : ∀ t ∈ ts, periodQual a t ≠ none) :
    (printOutputQual a ts).isSome = true := by
  induction ts with
  | nil => simp [printOutputQual]
  | cons s rest ih =>
    have hs := h s (List.mem_cons_self s rest)
    have hr := ih fun t ht => h t (List.mem_cons_of_mem _ ht)
    cases hq : periodQual a s with
    | none => exact absurd hq hs
    | some q =>
      cases hq2 : printOutputQual a rest with
      | none => rw [hq2] at hr; simp at hr
      | some r => simp [printOutputQual, hq, hq2]

/-- C10: `print_output` divides each blend-quality sum by the product
output flow; whenever any of the four product flows is 0 at some period
it hits a division by zero (returns `none`), and when all four flows are
nonzero at every period it completes. -/
theorem c10_print_output_divzero (a : Asn) :
    ((∃ t ∈ timeperiods,
        a.x pg_prod pg_tk pg_out t = 0 ∨ a.x rg_prod rg_tk rg_out t = 0
        ∨ a.x df_prod df_tk df_out t = 0 ∨ a.x fo_prod fo_tk fo_out t = 0) →
      print_output a = none)
    ∧ ((∀ t ∈ timeperiods,
        a.x pg_prod pg_tk pg_out t ≠ 0 ∧ a.x rg_prod rg_tk rg_out t ≠ 0
        ∧ a.x df_prod df_tk df_out t ≠ 0 ∧ a.x fo_prod fo_tk fo_out t ≠ 0) →
      (print_output a).isSome = true) := by
  constructor
  · rintro ⟨t, ht, hz⟩
    exact printOutputQual_none a timeperiods t ht ((periodQual_none_iff a t).mpr hz)
  · intro h
    refine printOutputQual_isSome a timeperiods fun t ht => ?_
    intro hnone
    rcases (periodQual_none_iff a t).mp hnone with hz | hz | hz | hz
    · exact (h t ht).1 hz
    · exact (h t ht).2.1 hz
    · exact (h t ht).2.2.1 hz
    · exact (h t ht).2.2.2 hz

/-- The all-zero assignment: what `print_output` would see on a failed
solve where every value defaults to 0. -/
def zeroAsn : Asn where
  x := fun _ _ _ _ => 0
  m := fun _ _ => 0
  alpha := fun _ => 0

section DecideRatTen

attribute [local semireducible] Rat.add Rat.sub Rat.mul Rat.inv Rat.ofScientific

/-- Witness for C10: on the all-zero assignment `print_output` divides by
zero; on the concrete satisfying assignment (all product flows positive)
it completes. -/
theorem c10_print_output_divzero_witness :
    print_output zeroAsn = none ∧ (print_output cexAsn).isSome = true :=
  ⟨(c10_print_output_divzero zeroAsn).1 ⟨1, by decide, Or.inl rfl⟩,
   (c10_print_output_divzero cexAsn).2 (by decide)⟩

end DecideRatTen

end Refinery
